import Mathlib

/-!
Verification of the FLASH oxygen-depletion / OER model (`flashOERModel.py`).

The model layer is a pure numerical library:
* `oxygenCurve`   : oxygen concentration after exposure time `t` (two kinetic regimes);
* `OER`           : instantaneous oxygen enhancement ratio, normalized to `[1/3, 1]`;
* `cumulativeOER` : closed-form time-average of `OER` along the depletion trajectory;
* `predictSurvival` : linear-quadratic survival of a list of exposures.

The Python source chooses the regime with a module-level boolean `linearModel`
(`True` = depletion independent of the O2 concentration, `False` = proportional
to it).  Here the flag is passed explicitly as a `Bool` argument `lm`, so both
regimes can be reasoned about; `linearModel` below records the value the module
is shipped with.  Floating point arithmetic is idealized as real arithmetic;
division by zero follows the Lean convention `x / 0 = 0`.
-/

namespace FlashOER

/-- Shipped value of the module flag: the model defaults to the
concentration-dependent regime. -/
def linearModel : Bool := false

/-- Reference depletion rate constant (`REFoxDep` in the source): chosen at
module load time from the `linearModel` flag. -/
noncomputable def REFoxDep : ℝ := if linearModel then 0.000518 else 0.053

/-- Reference recovery rate constant (`REFoxRec` in the source). -/
noncomputable def REFoxRec : ℝ := if linearModel then 1.0 else 1.0

/-- Reference mid-point of the OER curve (`REFOERCenter` in the source). -/
noncomputable def REFOERCenter : ℝ := 0.010

/-- Oxygen concentration at time `t` of exposure to `doseRate`, starting from
`O2Mean` (`oxygenCurve` in the source).  `lm = true` is the concentration
independent regime, where the closed form is clamped below at `0`
(`np.clip(estO2, 0, None)`); `lm = false` is the concentration dependent
regime, returned without clamping. -/
noncomputable def oxygenCurve (lm : Bool) (t doseRate O2Mean : ℝ)
    (oxDepletion : ℝ := REFoxDep) (oxRecovery : ℝ := REFoxRec) : ℝ :=
  if lm then
    max (O2Mean + doseRate*oxDepletion/oxRecovery*(Real.exp (-oxRecovery*t) - 1)) 0
  else
    O2Mean/(doseRate*oxDepletion + oxRecovery) *
      (doseRate*oxDepletion*Real.exp (-(doseRate*oxDepletion + oxRecovery)*t) + oxRecovery)

/-- Instantaneous OER as a function of the oxygen concentration (`OER` in the
source): `1` is full sensitivity, fully de-oxygenated gives `1/3`. -/
noncomputable def OER (oxygen centralPoint : ℝ) : ℝ :=
  (3*oxygen + centralPoint)/(oxygen + centralPoint)/3

/-- Cumulative OER of an exposure to `dose` at `doseRate` (`cumulativeOER` in
the source).  Transcribed branch by branch: the `dose = 0` sentinel, the
concentration-dependent closed form (`lm = false`), and for `lm = true` the
depletion-threshold / crossing-time case split, with the two closed-form
blocks written out separately exactly as in the source. -/
noncomputable def cumulativeOER (lm : Bool) (dose doseRate O2Mean : ℝ)
    (oxDepletion : ℝ := REFoxDep) (oxRecovery : ℝ := REFoxRec)
    (OERCenter : ℝ := REFOERCenter) : ℝ :=
  if dose = 0 then 0 else
  let t := dose/doseRate
  if lm = false then
    let r := oxDepletion*doseRate
    let NumTermOne := t*(3*oxRecovery*O2Mean + OERCenter*(oxRecovery + r))
    let NumTermTwo := 2*OERCenter*Real.log ((OERCenter + O2Mean)*(oxRecovery + r))
    let NumTermThree := -2*OERCenter*Real.log (OERCenter*(oxRecovery + r) +
        O2Mean*(oxRecovery + r*Real.exp (-(oxRecovery + r)*t)))
    let OERNum := NumTermOne + NumTermTwo + NumTermThree
    let OERDen := t*(oxRecovery*O2Mean + OERCenter*(oxRecovery + r))
    OERNum/OERDen/3
  else
    let depletionThreshold := O2Mean*oxRecovery/(doseRate*oxDepletion)
    let crossTime := -Real.log (1 - depletionThreshold)/oxRecovery
    if depletionThreshold ≥ 1 ∨ crossTime > t then
      let NumTermOne := (3*doseRate*oxDepletion - OERCenter*oxRecovery - 3*oxRecovery*O2Mean)*t
      let NumTermTwo := 2*OERCenter*Real.log (1 +
          doseRate*oxDepletion*(Real.exp (-oxRecovery*t) - 1)/(oxRecovery*(OERCenter + O2Mean)))
      let Den := 3*doseRate*oxDepletion - 3*oxRecovery*(O2Mean + OERCenter)
      (NumTermOne + NumTermTwo)/Den/t
    else
      let NumTermOne := (3*doseRate*oxDepletion - OERCenter*oxRecovery - 3*oxRecovery*O2Mean)*crossTime
      let NumTermTwo := 2*OERCenter*Real.log (1 +
          doseRate*oxDepletion*(Real.exp (-oxRecovery*crossTime) - 1)/(oxRecovery*(OERCenter + O2Mean)))
      let Den := 3*doseRate*oxDepletion - 3*oxRecovery*(O2Mean + OERCenter)
      ((NumTermOne + NumTermTwo)/Den + (t - crossTime)/3)/t

/-- Survival prediction for a list of `(dose, doseRate, o2)` exposures
(`predictSurvival` in the source).  The source's default value for the
recovery-rate override `oxRec` is `REFoxDep` (not `REFoxRec`); that default is
reproduced verbatim here. -/
noncomputable def predictSurvival (lm : Bool) (exposures : List (ℝ × ℝ × ℝ)) (alpha beta : ℝ)
    (oxDep : ℝ := REFoxDep) (oxRec : ℝ := REFoxDep) (OERCentre : ℝ := REFOERCenter) :
    List ℝ :=
  exposures.map (fun exposure =>
    let oerVal := cumulativeOER lm exposure.1 exposure.2.1 exposure.2.2 oxDep oxRec OERCentre
    let scaledDose := exposure.1*oerVal
    Real.exp (-scaledDose*alpha - beta*scaledDose*scaledDose))

/-- Spec-side closed form for the concentration-dependent oxygen trajectory,
transcribed from the specification text of §4.1. -/
noncomputable def oxygenDepSpec (t doseRate O2Mean oxDepletion oxRecovery : ℝ) : ℝ :=
  O2Mean/(doseRate*oxDepletion + oxRecovery) *
    (doseRate*oxDepletion*Real.exp (-(doseRate*oxDepletion + oxRecovery)*t) + oxRecovery)

/-- Spec-side unclamped closed form for the concentration-independent oxygen
trajectory, transcribed from the specification text of §4.1. -/
noncomputable def oxygenIndepSpec (t doseRate O2Mean oxDepletion oxRecovery : ℝ) : ℝ :=
  O2Mean + doseRate*oxDepletion/oxRecovery*(Real.exp (-oxRecovery*t) - 1)

/-- Closed-form antiderivative of `s ↦ OER (oxygenCurve false s D O d k) c`:
the numerator of the source's concentration-dependent branch as a function of
the upper integration limit `s`, divided by three times the source's
time-independent denominator factor. -/
noncomputable def depAnti (D O d k c s : ℝ) : ℝ :=
  (s*(3*k*O + c*(k + d*D)) + 2*c*Real.log ((c + O)*(k + d*D))
    - 2*c*Real.log (c*(k + d*D) + O*(k + d*D*Real.exp (-(k + d*D)*s))))
  / (3*(k*O + c*(k + d*D)))

/-- The closed form integrated by the source's concentration-independent
branch, as a function of the upper integration limit `τ`: both branches of the
source use this same expression, once at `τ = t` and once at
`τ = crossTime`. -/
noncomputable def indepClosedForm (τ D O d k c : ℝ) : ℝ :=
  ((3*D*d - c*k - 3*k*O)*τ + 2*c*Real.log (1 + D*d*(Real.exp (-k*τ) - 1)/(k*(c + O))))
  / (3*D*d - 3*k*(O + c))

/-- Spec-side description of the concentration-independent `cumulativeOER`
(claim C1): compute the depletion threshold, the crossing time, and take one
of the three paths, substituting `crossTime` for `t` in the single closed form
`indepClosedForm` on the mid-exposure-depletion path. -/
noncomputable def cumulativeOERIndepSpec
    (dose doseRate O2Mean oxDepletion oxRecovery OERCenter : ℝ) : ℝ :=
  let t := dose/doseRate
  let depletionThreshold := O2Mean*oxRecovery/(doseRate*oxDepletion)
  let crossTime := -Real.log (1 - depletionThreshold)/oxRecovery
  if depletionThreshold ≥ 1 ∨ crossTime > t then
    indepClosedForm t doseRate O2Mean oxDepletion oxRecovery OERCenter/t
  else
    (indepClosedForm crossTime doseRate O2Mean oxDepletion oxRecovery OERCenter
      + (t - crossTime)/3)/t

/-- Division with an explicit division-by-zero check.  The plain definitions
above idealize the source's floating-point division as total real division;
`divChecked` instead returns `none` exactly where the source divides by zero
(a `ZeroDivisionError` for Python floats, a non-finite `inf`/`nan` for numpy
scalars — in either case no finite number is produced).  Claims about which
values the program can produce are settled against the checked forms. -/
noncomputable def divChecked (a b : ℝ) : Option ℝ :=
  if b = 0 then none else some (a/b)

/-- Division-checked transcription of `oxygenCurve`: identical to the plain
definition except that each division of the source is performed with
`divChecked`, so the concentration-independent branch fails (returns `none`)
at `oxRecovery = 0`, exactly where the source evaluates
`doseRate*oxDepletion/oxRecovery` with a zero divisor.  No logarithms occur
here, so division is the only fallible operation. -/
noncomputable def oxygenCurveChecked (lm : Bool) (t doseRate O2Mean : ℝ)
    (oxDepletion : ℝ := REFoxDep) (oxRecovery : ℝ := REFoxRec) : Option ℝ :=
  if lm then
    (divChecked (doseRate*oxDepletion) oxRecovery).map (fun q =>
      max (O2Mean + q*(Real.exp (-oxRecovery*t) - 1)) 0)
  else
    (divChecked O2Mean (doseRate*oxDepletion + oxRecovery)).map (fun q =>
      q*(doseRate*oxDepletion*Real.exp (-(doseRate*oxDepletion + oxRecovery)*t) + oxRecovery))

/-- Division-checked transcription of `cumulativeOER`: the same computation,
branch for branch and in the source's evaluation order, with every division
performed by `divChecked`.  In particular `crossTime` is computed (and its
division by `oxRecovery` attempted) only when `depletionThreshold < 1`, as in
the source, where the `or` short-circuits past the `nan` crossTime when the
threshold is at least `1`.  On the documented parameter domain every
`Real.log` argument reached is strictly positive (proved below), so division
by zero is the only failure mode of the source on that domain and the checked
value is `none` exactly where the source produces no finite number. -/
noncomputable def cumulativeOERChecked (lm : Bool) (dose doseRate O2Mean : ℝ)
    (oxDepletion : ℝ := REFoxDep) (oxRecovery : ℝ := REFoxRec)
    (OERCenter : ℝ := REFOERCenter) : Option ℝ :=
  if dose = 0 then some 0 else
  (divChecked dose doseRate).bind fun t =>
  if lm = false then
    let r := oxDepletion*doseRate
    let NumTermOne := t*(3*oxRecovery*O2Mean + OERCenter*(oxRecovery + r))
    let NumTermTwo := 2*OERCenter*Real.log ((OERCenter + O2Mean)*(oxRecovery + r))
    let NumTermThree := -2*OERCenter*Real.log (OERCenter*(oxRecovery + r) +
        O2Mean*(oxRecovery + r*Real.exp (-(oxRecovery + r)*t)))
    let OERNum := NumTermOne + NumTermTwo + NumTermThree
    let OERDen := t*(oxRecovery*O2Mean + OERCenter*(oxRecovery + r))
    (divChecked OERNum OERDen).bind fun q => divChecked q 3
  else
    (divChecked (O2Mean*oxRecovery) (doseRate*oxDepletion)).bind fun depletionThreshold =>
    let directPath : Option ℝ :=
      (divChecked (doseRate*oxDepletion*(Real.exp (-oxRecovery*t) - 1))
          (oxRecovery*(OERCenter + O2Mean))).bind fun logFrac =>
      let NumTermOne := (3*doseRate*oxDepletion - OERCenter*oxRecovery - 3*oxRecovery*O2Mean)*t
      let NumTermTwo := 2*OERCenter*Real.log (1 + logFrac)
      let Den := 3*doseRate*oxDepletion - 3*oxRecovery*(O2Mean + OERCenter)
      (divChecked (NumTermOne + NumTermTwo) Den).bind fun E => divChecked E t
    if depletionThreshold ≥ 1 then directPath
    else
      (divChecked (-Real.log (1 - depletionThreshold)) oxRecovery).bind fun crossTime =>
      if crossTime > t then directPath
      else
        (divChecked (doseRate*oxDepletion*(Real.exp (-oxRecovery*crossTime) - 1))
            (oxRecovery*(OERCenter + O2Mean))).bind fun logFrac =>
        let NumTermOne := (3*doseRate*oxDepletion - OERCenter*oxRecovery
            - 3*oxRecovery*O2Mean)*crossTime
        let NumTermTwo := 2*OERCenter*Real.log (1 + logFrac)
        let Den := 3*doseRate*oxDepletion - 3*oxRecovery*(O2Mean + OERCenter)
        (divChecked (NumTermOne + NumTermTwo) Den).bind fun E =>
        (divChecked (t - crossTime) 3).bind fun F => divChecked (E + F) t

/-- Unfolding lemma: the concentration-dependent branch of `oxygenCurve`. -/
lemma oxygenCurve_dep (t doseRate O2Mean oxDepletion oxRecovery : ℝ) :
    oxygenCurve false t doseRate O2Mean oxDepletion oxRecovery =
      O2Mean/(doseRate*oxDepletion + oxRecovery) *
        (doseRate*oxDepletion*Real.exp (-(doseRate*oxDepletion + oxRecovery)*t) + oxRecovery) :=
  rfl

/-- Unfolding lemma: the concentration-independent branch of `oxygenCurve`. -/
lemma oxygenCurve_indep (t doseRate O2Mean oxDepletion oxRecovery : ℝ) :
    oxygenCurve true t doseRate O2Mean oxDepletion oxRecovery =
      max (O2Mean + doseRate*oxDepletion/oxRecovery*(Real.exp (-oxRecovery*t) - 1)) 0 :=
  rfl

/-- Checked division succeeds on a nonzero divisor. -/
lemma divChecked_of_ne (a b : ℝ) (hb : b ≠ 0) : divChecked a b = some (a/b) := by
  rw [divChecked, if_neg hb]

/-- Checked division fails on a zero divisor. -/
lemma divChecked_zero (a : ℝ) : divChecked a 0 = none := by
  rw [divChecked, if_pos rfl]

/-- The concentration-dependent oxygen curve is nonnegative on the documented
parameter domain (for every real time, in fact). -/
lemma oxygenCurve_dep_nonneg (t doseRate O2Mean oxDepletion oxRecovery : ℝ)
    (hD : 0 < doseRate) (hd : 0 < oxDepletion) (hk : 0 ≤ oxRecovery) (hO : 0 ≤ O2Mean) :
    0 ≤ oxygenCurve false t doseRate O2Mean oxDepletion oxRecovery := by
  rw [oxygenCurve_dep]
  have hr : 0 < doseRate*oxDepletion := mul_pos hD hd
  have h1 : 0 ≤ O2Mean/(doseRate*oxDepletion + oxRecovery) :=
    div_nonneg hO (by linarith)
  have h2 : 0 ≤ doseRate*oxDepletion*Real.exp (-(doseRate*oxDepletion + oxRecovery)*t)
      + oxRecovery := by
    have := Real.exp_pos (-(doseRate*oxDepletion + oxRecovery)*t)
    nlinarith
  exact mul_nonneg h1 h2

/-- The clamped concentration-independent oxygen curve is nonnegative. -/
lemma oxygenCurve_indep_nonneg (t doseRate O2Mean oxDepletion oxRecovery : ℝ) :
    0 ≤ oxygenCurve true t doseRate O2Mean oxDepletion oxRecovery := by
  rw [oxygenCurve_indep]; exact le_max_right _ _

/-- Lower bound for the instantaneous OER at nonnegative oxygen. -/
lemma OER_ge_third (x m : ℝ) (hx : 0 ≤ x) (hm : 0 < m) : 1/3 ≤ OER x m := by
  have hden : 0 < x + m := by linarith
  rw [OER]
  have hA : 1 ≤ (3*x + m)/(x + m) := by
    rw [one_le_div hden]; linarith
  linarith

/-- Strict lower bound for the instantaneous OER at positive oxygen. -/
lemma OER_gt_third (x m : ℝ) (hx : 0 < x) (hm : 0 < m) : 1/3 < OER x m := by
  have hden : 0 < x + m := by linarith
  rw [OER]
  have hA : 1 < (3*x + m)/(x + m) := by
    rw [one_lt_div hden]; linarith
  linarith

/-- Upper bound for the instantaneous OER at nonnegative oxygen. -/
lemma OER_le_one (x m : ℝ) (hx : 0 ≤ x) (hm : 0 < m) : OER x m ≤ 1 := by
  have hden : 0 < x + m := by linarith
  rw [OER]
  have hA : (3*x + m)/(x + m) ≤ 3 := by
    rw [div_le_iff₀ hden]; linarith
  linarith

/-- Claim C3: in the concentration-dependent regime, `oxygenCurve` equals the
closed form `baselineOxygen/(doseRate*depletionRate+recoveryRate) *
(doseRate*depletionRate*exp(-(doseRate*depletionRate+recoveryRate)*t) +
recoveryRate)`, and this value is nonnegative with no clamping applied. -/
theorem C3_oxygen_dep_closed_form (t doseRate O2Mean oxDepletion oxRecovery : ℝ)
    (ht : 0 ≤ t) (hD : 0 < doseRate) (hO : 0 ≤ O2Mean) (hd : 0 < oxDepletion)
    (hk : 0 ≤ oxRecovery) :
    oxygenCurve false t doseRate O2Mean oxDepletion oxRecovery =
      oxygenDepSpec t doseRate O2Mean oxDepletion oxRecovery ∧
    0 ≤ oxygenCurve false t doseRate O2Mean oxDepletion oxRecovery :=
  ⟨rfl, oxygenCurve_dep_nonneg t doseRate O2Mean oxDepletion oxRecovery hD hd hk hO⟩

/-- Witness for C3 at `t = 0, doseRate = 1, O2Mean = 0, oxDepletion = 1,
oxRecovery = 0`. -/
theorem C3_witness :
    oxygenCurve false 0 1 0 1 0 = oxygenDepSpec 0 1 0 1 0 ∧
    0 ≤ oxygenCurve false 0 1 0 1 0 :=
  C3_oxygen_dep_closed_form 0 1 0 1 0 le_rfl one_pos le_rfl one_pos le_rfl

/-- Claim C4: in the concentration-independent regime, `oxygenCurve` equals
`max 0` of the closed form `baselineOxygen +
doseRate*depletionRate/recoveryRate*(exp(-recoveryRate*t) - 1)`; wherever the
closed form is negative the function returns exactly `0`. -/
theorem C4_oxygen_indep_clamped (t doseRate O2Mean oxDepletion oxRecovery : ℝ)
    (ht : 0 ≤ t) (hD : 0 < doseRate) (hO : 0 ≤ O2Mean) (hd : 0 < oxDepletion)
    (hk : 0 ≤ oxRecovery) :
    oxygenCurve true t doseRate O2Mean oxDepletion oxRecovery =
      max 0 (oxygenIndepSpec t doseRate O2Mean oxDepletion oxRecovery) ∧
    (oxygenIndepSpec t doseRate O2Mean oxDepletion oxRecovery < 0 →
      oxygenCurve true t doseRate O2Mean oxDepletion oxRecovery = 0) := by
  constructor
  · rw [oxygenCurve_indep, oxygenIndepSpec, max_comm]
  · intro h
    rw [oxygenCurve_indep]
    rw [oxygenIndepSpec] at h
    exact max_eq_right (le_of_lt h)

/-- Witness for C4 at `t = 1, doseRate = 1, O2Mean = 0, oxDepletion = 1,
oxRecovery = 1`. -/
theorem C4_witness :
    oxygenCurve true 1 1 0 1 1 = max 0 (oxygenIndepSpec 1 1 0 1 1) ∧
    (oxygenIndepSpec 1 1 0 1 1 < 0 → oxygenCurve true 1 1 0 1 1 = 0) :=
  C4_oxygen_indep_clamped 1 1 0 1 1 zero_le_one one_pos le_rfl one_pos zero_le_one

/-- Claim C9 (counterexample): at `oxygen = 0`, `oerMidpoint = 1` the
instantaneous OER equals exactly `1/3`, hence is not strictly greater than
`1/3` as the claimed half-open interval `(1/3, 1]` would require. -/
theorem C9_counterexample : OER 0 1 = 1/3 ∧ ¬ (1/3 < OER 0 1) := by
  have h : OER 0 1 = 1/3 := by rw [OER]; norm_num
  exact ⟨h, by rw [h]; exact lt_irrefl _⟩

/-- Claim C9 (amended): for `oxygen ≥ 0` and `oerMidpoint > 0` the
instantaneous OER lies in the closed interval `[1/3, 1]`, and is strictly
greater than `1/3` whenever `oxygen > 0`. -/
theorem C9_OER_range (x m : ℝ) (hx : 0 ≤ x) (hm : 0 < m) :
    1/3 ≤ OER x m ∧ OER x m ≤ 1 ∧ (0 < x → 1/3 < OER x m) :=
  ⟨OER_ge_third x m hx hm, OER_le_one x m hx hm, fun hx' => OER_gt_third x m hx' hm⟩

/-- Witness for the amended C9 at `oxygen = 2`, `oerMidpoint = 1`. -/
theorem C9_witness : 1/3 ≤ OER 2 1 ∧ OER 2 1 ≤ 1 ∧ (0 < (2:ℝ) → 1/3 < OER 2 1) :=
  C9_OER_range 2 1 (by norm_num) one_pos

/-- Claim C6: `predictSurvival`'s default for its recovery-rate override is the
depletion-rate constant `REFoxDep = 0.053`, not `REFoxRec = 1`; hence a call
with no overrides equals a call with `oxRec` explicitly set to `REFoxDep`. -/
theorem C6_default_oxRec :
    REFoxDep = 0.053 ∧ REFoxRec = 1 ∧ REFoxDep ≠ REFoxRec ∧
    ∀ (lm : Bool) (exposures : List (ℝ × ℝ × ℝ)) (alpha beta : ℝ),
      predictSurvival lm exposures alpha beta =
        predictSurvival lm exposures alpha beta REFoxDep REFoxDep REFOERCenter := by
  refine ⟨?_, ?_, ?_, fun _ _ _ _ => rfl⟩
  · norm_num [REFoxDep, linearModel]
  · norm_num [REFoxRec, linearModel]
  · norm_num [REFoxDep, REFoxRec, linearModel]

/-- Claim C5: `predictSurvival` returns a list of the same length and order as
its input, whose `i`-th element is `exp(-scaledDose*alpha - beta*scaledDose^2)`
with `scaledDose = dose * cumulativeOER(dose, doseRate, baselineOxygen, ...)`
taken from the `i`-th exposure alone. -/
theorem C5_predictSurvival_pointwise (lm : Bool) (exposures : List (ℝ × ℝ × ℝ))
    (alpha beta oxDep oxRec OERCentre : ℝ) (halpha : 0 ≤ alpha) (hbeta : 0 ≤ beta)
    (hexp : ∀ e ∈ exposures, 0 ≤ e.1 ∧ 0 < e.2.1) :
    (predictSurvival lm exposures alpha beta oxDep oxRec OERCentre).length
      = exposures.length ∧
    ∀ i : ℕ, (predictSurvival lm exposures alpha beta oxDep oxRec OERCentre)[i]? =
      (exposures[i]?).map (fun e =>
        Real.exp (-(e.1*cumulativeOER lm e.1 e.2.1 e.2.2 oxDep oxRec OERCentre)*alpha
          - beta*(e.1*cumulativeOER lm e.1 e.2.1 e.2.2 oxDep oxRec OERCentre)^2)) := by
  constructor
  · rw [predictSurvival]
    exact List.length_map _ _
  · intro i
    rw [predictSurvival, List.getElem?_map]
    cases h : exposures[i]? with
    | none => rfl
    | some e =>
        simp only [Option.map_some']
        congr 1
        ring

/-- Witness for C5 on the single exposure `(1, 2, 0)` with
`alpha = beta = 0` and reference-style overrides. -/
theorem C5_witness :
    (predictSurvival false [((1:ℝ), 2, 0)] 0 0 (53/1000) (53/1000) (1/100)).length
      = ([((1:ℝ), 2, 0)] : List (ℝ × ℝ × ℝ)).length :=
  (C5_predictSurvival_pointwise false [((1:ℝ), 2, 0)] 0 0 (53/1000) (53/1000) (1/100)
    le_rfl le_rfl (by
      intro e he
      rw [List.mem_singleton] at he
      subst he
      norm_num)).1

/-- At zero dose `cumulativeOER` returns the sentinel `0`, whatever the other
arguments are. -/
lemma cumulativeOER_zero (lm : Bool) (doseRate O2Mean oxDepletion oxRecovery OERCenter : ℝ) :
    cumulativeOER lm 0 doseRate O2Mean oxDepletion oxRecovery OERCenter = 0 := by
  rw [cumulativeOER]
  exact if_pos rfl

/-- The concentration-dependent branch of `cumulativeOER` is the antiderivative
`depAnti` evaluated at `t = dose/doseRate`, divided by `t`. -/
lemma cumulativeOER_false_eq (dose D O d k c : ℝ) (hdose : dose ≠ 0) :
    cumulativeOER false dose D O d k c = depAnti D O d k c (dose/D)/(dose/D) := by
  simp only [cumulativeOER, depAnti, hdose, if_false, ite_false, eq_self_iff_true, if_true,
    ite_true]
  rw [div_div, div_div]
  congr 1 <;> ring

/-- The concentration-independent branch of `cumulativeOER`, written with the
shared closed form `indepClosedForm`. -/
lemma cumulativeOER_true_eq (dose D O d k c : ℝ) (hdose : dose ≠ 0) :
    cumulativeOER true dose D O d k c =
      if O*k/(D*d) ≥ 1 ∨ -Real.log (1 - O*k/(D*d))/k > dose/D then
        indepClosedForm (dose/D) D O d k c/(dose/D)
      else
        (indepClosedForm (-Real.log (1 - O*k/(D*d))/k) D O d k c
          + (dose/D - -Real.log (1 - O*k/(D*d))/k)/3)/(dose/D) := by
  simp only [cumulativeOER, indepClosedForm, hdose, if_false, ite_false, Bool.true_eq_false,
    eq_self_iff_true, if_true, ite_true]

/-- Claim C1: in the concentration-independent regime `cumulativeOER` computes
`depletionThreshold = baselineOxygen*recoveryRate/(doseRate*depletionRate)`
and takes exactly one of three paths: direct closed form over `[0, t]` when
the threshold is at least `1` or when
`crossTime = -ln(1 - depletionThreshold)/recoveryRate` exceeds `t`, otherwise
the same closed form with `crossTime` substituted for `t` everywhere plus
`(t - crossTime)/3`, the sum divided by `t`. -/
theorem C1_cumulativeOER_indep_three_way (dose doseRate O2Mean oxDepletion oxRecovery
    OERCenter : ℝ) (hdose : 0 < dose) (hD : 0 < doseRate) (hd : 0 < oxDepletion)
    (hk : 0 ≤ oxRecovery) (hc : 0 < OERCenter) (hO : 0 ≤ O2Mean) :
    cumulativeOER true dose doseRate O2Mean oxDepletion oxRecovery OERCenter =
      cumulativeOERIndepSpec dose doseRate O2Mean oxDepletion oxRecovery OERCenter := by
  rw [cumulativeOER_true_eq dose doseRate O2Mean oxDepletion oxRecovery OERCenter hdose.ne',
    cumulativeOERIndepSpec]

/-- Witness for C1 at `dose = 1, doseRate = 1, O2Mean = 1, oxDepletion = 1,
oxRecovery = 1, OERCenter = 1`. -/
theorem C1_witness :
    cumulativeOER true 1 1 1 1 1 1 = cumulativeOERIndepSpec 1 1 1 1 1 1 :=
  C1_cumulativeOER_indep_three_way 1 1 1 1 1 1 one_pos one_pos one_pos zero_le_one
    one_pos zero_le_one

/-- The antiderivative `depAnti` vanishes at `0`. -/
lemma depAnti_zero (D O d k c : ℝ) : depAnti D O d k c 0 = 0 := by
  rw [depAnti, mul_zero, Real.exp_zero]
  rw [show c*(k + d*D) + O*(k + d*D*1) = (c + O)*(k + d*D) by ring]
  rw [zero_mul]
  ring_nf

/-- The function `depAnti` is an antiderivative of the instantaneous OER
composed with the concentration-dependent oxygen trajectory. -/
lemma depAnti_hasDeriv (D O d k c : ℝ) (hD : 0 < D) (hd : 0 < d) (hk : 0 ≤ k)
    (hc : 0 < c) (hO : 0 ≤ O) (s : ℝ) :
    HasDerivAt (fun x => depAnti D O d k c x)
      (OER (oxygenCurve false s D O d k) c) s := by
  have hK : 0 < k + d*D := by nlinarith [mul_pos hd hD]
  have hb : 0 < k*O + c*(k + d*D) := by nlinarith [mul_nonneg hk hO, mul_pos hc hK]
  have hgpos : 0 < c*(k + d*D) + O*(k + d*D*Real.exp (-(k + d*D)*s)) := by
    have he := Real.exp_pos (-(k + d*D)*s)
    nlinarith [mul_pos hc hK, mul_nonneg hO (by nlinarith [mul_pos (mul_pos hd hD) he] :
      (0:ℝ) ≤ k + d*D*Real.exp (-(k + d*D)*s))]
  have h0 : HasDerivAt (fun x : ℝ => -(k + d*D)*x) (-(k + d*D)) s := by
    simpa using (hasDerivAt_id s).const_mul (-(k + d*D))
  have h1 : HasDerivAt (fun x => Real.exp (-(k + d*D)*x))
      (Real.exp (-(k + d*D)*s)*(-(k + d*D))) s := h0.exp
  have hg : HasDerivAt (fun x => c*(k + d*D) + O*(k + d*D*Real.exp (-(k + d*D)*x)))
      (O*(d*D*(Real.exp (-(k + d*D)*s)*(-(k + d*D))))) s :=
    (((h1.const_mul (d*D)).const_add k).const_mul O).const_add (c*(k + d*D))
  have hlog : HasDerivAt
      (fun x => Real.log (c*(k + d*D) + O*(k + d*D*Real.exp (-(k + d*D)*x))))
      (O*(d*D*(Real.exp (-(k + d*D)*s)*(-(k + d*D))))
        / (c*(k + d*D) + O*(k + d*D*Real.exp (-(k + d*D)*s)))) s :=
    hg.log hgpos.ne'
  have hlin : HasDerivAt (fun x : ℝ => x*(3*k*O + c*(k + d*D)))
      (3*k*O + c*(k + d*D)) s := by
    simpa using (hasDerivAt_id s).mul_const (3*k*O + c*(k + d*D))
  have hNum := (hlin.add_const (2*c*Real.log ((c + O)*(k + d*D)))).sub
    (hlog.const_mul (2*c))
  have hF := hNum.div_const (3*(k*O + c*(k + d*D)))
  convert hF using 1
  rw [OER, oxygenCurve_dep]
  rw [show (-(D*d + k)*s) = (-(k + d*D)*s) by ring]
  have hoxyc : 0 < O/(D*d + k)*(D*d*Real.exp (-(k + d*D)*s) + k) + c := by
    have hnn : 0 ≤ O/(D*d + k)*(D*d*Real.exp (-(k + d*D)*s) + k) := by
      have h := oxygenCurve_dep_nonneg s D O d k hD hd hk hO
      rw [oxygenCurve_dep] at h
      rw [show (-(D*d + k)*s) = (-(k + d*D)*s) by ring] at h
      exact h
    linarith
  have hKne : D*d + k ≠ 0 := by nlinarith [mul_pos hD hd]
  field_simp
  ring

/-- The integrand of the cumulative OER is continuous in the
concentration-dependent regime. -/
lemma dep_integrand_continuous (D O d k c : ℝ) (hD : 0 < D) (hd : 0 < d) (hk : 0 ≤ k)
    (hc : 0 < c) (hO : 0 ≤ O) :
    Continuous (fun s => OER (oxygenCurve false s D O d k) c) := by
  have hexp : Continuous fun s : ℝ => Real.exp (-(D*d + k)*s) :=
    Real.continuous_exp.comp (continuous_const.mul continuous_id)
  have hoxy : Continuous fun s : ℝ =>
      O/(D*d + k)*(D*d*Real.exp (-(D*d + k)*s) + k) :=
    continuous_const.mul ((continuous_const.mul hexp).add continuous_const)
  have hne : ∀ s : ℝ, O/(D*d + k)*(D*d*Real.exp (-(D*d + k)*s) + k) + c ≠ 0 := by
    intro s
    have h := oxygenCurve_dep_nonneg s D O d k hD hd hk hO
    rw [oxygenCurve_dep] at h
    have : 0 < O/(D*d + k)*(D*d*Real.exp (-(D*d + k)*s) + k) + c := by linarith
    exact this.ne'
  simp only [OER, oxygenCurve_dep]
  exact (((continuous_const.mul hoxy).add continuous_const).div
    (hoxy.add continuous_const) hne).div_const 3

/-- Fundamental theorem of calculus for the concentration-dependent regime:
the source's closed form is the exact integral of `OER ∘ oxygenCurve`. -/
lemma dep_integral (D O d k c : ℝ) (hD : 0 < D) (hd : 0 < d) (hk : 0 ≤ k)
    (hc : 0 < c) (hO : 0 ≤ O) (t : ℝ) :
    ∫ s in (0:ℝ)..t, OER (oxygenCurve false s D O d k) c = depAnti D O d k c t := by
  rw [intervalIntegral.integral_eq_sub_of_hasDerivAt
      (fun x _ => depAnti_hasDeriv D O d k c hD hd hk hc hO x)
      ((dep_integrand_continuous D O d k c hD hd hk hc hO).intervalIntegrable 0 t),
    depAnti_zero, sub_zero]

/-- The integral of the instantaneous OER along the concentration-dependent
trajectory lies between `t/3` and `t`. -/
lemma dep_integral_bounds (D O d k c : ℝ) (hD : 0 < D) (hd : 0 < d) (hk : 0 ≤ k)
    (hc : 0 < c) (hO : 0 ≤ O) (t : ℝ) (ht : 0 ≤ t) :
    t/3 ≤ (∫ s in (0:ℝ)..t, OER (oxygenCurve false s D O d k) c) ∧
    (∫ s in (0:ℝ)..t, OER (oxygenCurve false s D O d k) c) ≤ t := by
  have hint : IntervalIntegrable (fun s => OER (oxygenCurve false s D O d k) c)
      MeasureTheory.volume 0 t :=
    (dep_integrand_continuous D O d k c hD hd hk hc hO).intervalIntegrable 0 t
  have hconst : ∀ r : ℝ, IntervalIntegrable (fun _ : ℝ => r) MeasureTheory.volume 0 t :=
    fun r => intervalIntegrable_const
  constructor
  · have h := intervalIntegral.integral_mono_on ht (hconst (1/3)) hint
      (fun s _ => OER_ge_third (oxygenCurve false s D O d k) c
        (oxygenCurve_dep_nonneg s D O d k hD hd hk hO) hc)
    rw [intervalIntegral.integral_const, sub_zero, smul_eq_mul] at h
    linarith
  · have h := intervalIntegral.integral_mono_on ht hint (hconst 1)
      (fun s _ => OER_le_one (oxygenCurve false s D O d k) c
        (oxygenCurve_dep_nonneg s D O d k hD hd hk hO) hc)
    rw [intervalIntegral.integral_const, sub_zero, smul_eq_mul] at h
    linarith

/-- The concentration-dependent cumulative OER lies in `[1/3, 1]`. -/
lemma cumulativeOER_false_bounds (dose D O d k c : ℝ) (hdose : 0 < dose) (hD : 0 < D)
    (hd : 0 < d) (hk : 0 ≤ k) (hc : 0 < c) (hO : 0 ≤ O) :
    1/3 ≤ cumulativeOER false dose D O d k c ∧ cumulativeOER false dose D O d k c ≤ 1 := by
  have ht : 0 < dose/D := div_pos hdose hD
  have hb := dep_integral_bounds D O d k c hD hd hk hc hO (dose/D) ht.le
  rw [cumulativeOER_false_eq dose D O d k c hdose.ne',
    ← dep_integral D O d k c hD hd hk hc hO (dose/D)]
  constructor
  · rw [le_div_iff₀ ht]; linarith [hb.1]
  · rw [div_le_one ht]; exact hb.2

/-- Claim C2: in the concentration-dependent regime `cumulativeOER` equals
`(1/t)` times the integral over `[0, t]` of the instantaneous OER along the
oxygen-depletion trajectory, with `t = dose/doseRate`, and the two logarithm
arguments of its closed form are strictly positive. -/
theorem C2_cumulativeOER_dep_integral (dose doseRate O2Mean oxDepletion oxRecovery
    OERCenter : ℝ) (hdose : 0 < dose) (hD : 0 < doseRate) (hd : 0 < oxDepletion)
    (hk : 0 ≤ oxRecovery) (hc : 0 < OERCenter) (hO : 0 ≤ O2Mean) :
    cumulativeOER false dose doseRate O2Mean oxDepletion oxRecovery OERCenter =
      1/(dose/doseRate) * ∫ s in (0:ℝ)..(dose/doseRate),
        OER (oxygenCurve false s doseRate O2Mean oxDepletion oxRecovery) OERCenter ∧
    0 < (OERCenter + O2Mean)*(oxRecovery + oxDepletion*doseRate) ∧
    0 < OERCenter*(oxRecovery + oxDepletion*doseRate) +
        O2Mean*(oxRecovery + oxDepletion*doseRate*
          Real.exp (-(oxRecovery + oxDepletion*doseRate)*(dose/doseRate))) := by
  have hK : 0 < oxRecovery + oxDepletion*doseRate := by nlinarith [mul_pos hd hD]
  refine ⟨?_, ?_, ?_⟩
  · rw [cumulativeOER_false_eq dose doseRate O2Mean oxDepletion oxRecovery OERCenter hdose.ne',
      dep_integral doseRate O2Mean oxDepletion oxRecovery OERCenter hD hd hk hc hO
        (dose/doseRate), one_div, inv_mul_eq_div]
  · exact mul_pos (by linarith) hK
  · have he := Real.exp_pos (-(oxRecovery + oxDepletion*doseRate)*(dose/doseRate))
    nlinarith [mul_pos hc hK, mul_nonneg hO
      (by nlinarith [mul_pos (mul_pos hd hD) he] :
        (0:ℝ) ≤ oxRecovery + oxDepletion*doseRate*
          Real.exp (-(oxRecovery + oxDepletion*doseRate)*(dose/doseRate)))]

/-- Witness for C2 at `dose = doseRate = O2Mean = oxDepletion = oxRecovery =
OERCenter = 1`. -/
theorem C2_witness :
    cumulativeOER false 1 1 1 1 1 1 =
      1/((1:ℝ)/1) * ∫ s in (0:ℝ)..((1:ℝ)/1), OER (oxygenCurve false s 1 1 1 1) 1 ∧
    0 < ((1:ℝ) + 1)*(1 + 1*1) ∧
    0 < (1:ℝ)*(1 + 1*1) + 1*(1 + 1*1*Real.exp (-(1 + 1*1)*(1/1))) :=
  C2_cumulativeOER_dep_integral 1 1 1 1 1 1 one_pos one_pos one_pos zero_le_one
    one_pos zero_le_one

/-- The closed form `indepClosedForm` vanishes at `0`. -/
lemma indepClosedForm_zero (D O d k c : ℝ) : indepClosedForm 0 D O d k c = 0 := by
  simp [indepClosedForm]

/-- The logarithm argument of `indepClosedForm` is the unclamped trajectory
plus the midpoint, normalized by `c + O`. -/
lemma indep_log_arg (D O d k c s : ℝ) (hk : k ≠ 0) (hco : c + O ≠ 0) :
    1 + D*d*(Real.exp (-k*s) - 1)/(k*(c + O)) =
      (oxygenIndepSpec s D O d k + c)/(c + O) := by
  rw [oxygenIndepSpec]
  field_simp
  ring

/-- The function `indepClosedForm` is an antiderivative of the instantaneous
OER along the unclamped concentration-independent trajectory, away from the
singular parameter combination `doseRate*depletionRate =
recoveryRate*(O2Mean + OERCenter)`. -/
lemma indep_hasDeriv (D O d k c : ℝ) (hk : 0 < k) (hc : 0 < c) (hO : 0 ≤ O)
    (hA : D*d ≠ k*(O + c)) (s : ℝ) (hw : 0 < oxygenIndepSpec s D O d k + c) :
    HasDerivAt (fun x => indepClosedForm x D O d k c)
      (OER (oxygenIndepSpec s D O d k) c) s := by
  have hco : 0 < c + O := by linarith
  have hDen : 3*D*d - 3*k*(O + c) ≠ 0 := by
    intro h
    exact hA (by linarith)
  have hargpos : 0 < 1 + D*d*(Real.exp (-k*s) - 1)/(k*(c + O)) := by
    rw [indep_log_arg D O d k c s hk.ne' hco.ne']
    exact div_pos hw hco
  have h0 : HasDerivAt (fun x : ℝ => -k*x) (-k) s := by
    simpa using (hasDerivAt_id s).const_mul (-k)
  have h1 : HasDerivAt (fun x => Real.exp (-k*x)) (Real.exp (-k*s)*(-k)) s := h0.exp
  have harg : HasDerivAt (fun x => 1 + D*d*(Real.exp (-k*x) - 1)/(k*(c + O)))
      (D*d*(Real.exp (-k*s)*(-k))/(k*(c + O))) s :=
    (((h1.sub_const 1).const_mul (D*d)).div_const (k*(c + O))).const_add 1
  have hlog := harg.log hargpos.ne'
  have hlin : HasDerivAt (fun x : ℝ => (3*D*d - c*k - 3*k*O)*x) (3*D*d - c*k - 3*k*O) s := by
    simpa using (hasDerivAt_id s).const_mul (3*D*d - c*k - 3*k*O)
  have hF := (hlin.add (hlog.const_mul (2*c))).div_const (3*D*d - 3*k*(O + c))
  convert hF using 1
  rw [OER]
  rw [indep_log_arg D O d k c s hk.ne' hco.ne']
  have hWc : oxygenIndepSpec s D O d k + c ≠ 0 := hw.ne'
  have h2 : D*d*(Real.exp (-k*s)*(-k))/(k*(c + O))/((oxygenIndepSpec s D O d k + c)/(c + O))
      = -(D*d*Real.exp (-k*s))/(oxygenIndepSpec s D O d k + c) := by
    field_simp
    ring
  rw [h2]
  have h3 : D*d*Real.exp (-k*s) = (oxygenIndepSpec s D O d k - O)*k + D*d := by
    rw [oxygenIndepSpec]
    field_simp
    ring
  rw [h3]
  field_simp
  ring

/-- The unclamped concentration-independent trajectory is continuous. -/
lemma oxygenIndepSpec_continuous (D O d k : ℝ) :
    Continuous fun s : ℝ => oxygenIndepSpec s D O d k := by
  simp only [oxygenIndepSpec]
  exact continuous_const.add (continuous_const.mul
    ((Real.continuous_exp.comp (continuous_const.mul continuous_id)).sub continuous_const))

/-- On an interval where the unclamped trajectory stays nonnegative, the
composed OER integrand is continuous. -/
lemma indep_integrand_contOn (D O d k c : ℝ) (hc : 0 < c) (τ : ℝ) (hτ : 0 ≤ τ)
    (hwpos : ∀ s ∈ Set.Icc (0:ℝ) τ, 0 ≤ oxygenIndepSpec s D O d k) :
    ContinuousOn (fun s => OER (oxygenIndepSpec s D O d k) c) (Set.uIcc (0:ℝ) τ) := by
  rw [Set.uIcc_of_le hτ]
  have hw := oxygenIndepSpec_continuous D O d k
  have hne : ∀ s ∈ Set.Icc (0:ℝ) τ, oxygenIndepSpec s D O d k + c ≠ 0 := by
    intro s hs
    have h := hwpos s hs
    have : 0 < oxygenIndepSpec s D O d k + c := by linarith
    exact this.ne'
  simp only [OER]
  exact (((continuous_const.mul hw).add continuous_const).continuousOn.div
    ((hw.add continuous_const).continuousOn) hne).div_const 3

/-- Fundamental theorem of calculus for the concentration-independent regime:
on an interval where the unclamped trajectory stays nonnegative, the source's
closed form is the exact integral of the composed instantaneous OER. -/
lemma indep_integral (D O d k c : ℝ) (hk : 0 < k) (hc : 0 < c) (hO : 0 ≤ O)
    (hA : D*d ≠ k*(O + c)) (τ : ℝ) (hτ : 0 ≤ τ)
    (hwpos : ∀ s ∈ Set.Icc (0:ℝ) τ, 0 ≤ oxygenIndepSpec s D O d k) :
    ∫ s in (0:ℝ)..τ, OER (oxygenIndepSpec s D O d k) c = indepClosedForm τ D O d k c := by
  rw [intervalIntegral.integral_eq_sub_of_hasDerivAt
      (fun x hx => indep_hasDeriv D O d k c hk hc hO hA x (by
        rw [Set.uIcc_of_le hτ] at hx
        have h := hwpos x hx
        linarith))
      (indep_integrand_contOn D O d k c hc τ hτ hwpos).intervalIntegrable,
    indepClosedForm_zero, sub_zero]

/-- On an interval with nonnegative unclamped trajectory, `indepClosedForm τ`
lies between `τ/3` and `τ`. -/
lemma indep_E_bounds (D O d k c : ℝ) (hk : 0 < k) (hc : 0 < c) (hO : 0 ≤ O)
    (hA : D*d ≠ k*(O + c)) (τ : ℝ) (hτ : 0 ≤ τ)
    (hwpos : ∀ s ∈ Set.Icc (0:ℝ) τ, 0 ≤ oxygenIndepSpec s D O d k) :
    τ/3 ≤ indepClosedForm τ D O d k c ∧ indepClosedForm τ D O d k c ≤ τ := by
  rw [← indep_integral D O d k c hk hc hO hA τ hτ hwpos]
  have hint : IntervalIntegrable (fun s => OER (oxygenIndepSpec s D O d k) c)
      MeasureTheory.volume 0 τ :=
    (indep_integrand_contOn D O d k c hc τ hτ hwpos).intervalIntegrable
  have hconst : ∀ r : ℝ, IntervalIntegrable (fun _ : ℝ => r) MeasureTheory.volume 0 τ :=
    fun r => intervalIntegrable_const
  constructor
  · have h := intervalIntegral.integral_mono_on hτ (hconst (1/3)) hint
      (fun s hs => OER_ge_third (oxygenIndepSpec s D O d k) c (hwpos s hs) hc)
    rw [intervalIntegral.integral_const, sub_zero, smul_eq_mul] at h
    linarith
  · have h := intervalIntegral.integral_mono_on hτ hint (hconst 1)
      (fun s hs => OER_le_one (oxygenIndepSpec s D O d k) c (hwpos s hs) hc)
    rw [intervalIntegral.integral_const, sub_zero, smul_eq_mul] at h
    linarith

/-- When the depletion threshold is at least `1`, the unclamped trajectory
never goes negative. -/
lemma indep_w_nonneg_of_threshold (D O d k : ℝ) (hD : 0 < D) (hd : 0 < d) (hk : 0 < k)
    (hO : 0 ≤ O) (hθ : O*k/(D*d) ≥ 1) (s : ℝ) :
    0 ≤ oxygenIndepSpec s D O d k := by
  rw [oxygenIndepSpec]
  have hDd : 0 < D*d := mul_pos hD hd
  have hOk : D*d ≤ O*k := by
    rw [ge_iff_le, le_div_iff₀ hDd, one_mul] at hθ
    exact hθ
  have hE : 0 < Real.exp (-k*s) := Real.exp_pos _
  have hfrac : 0 < D*d/k := div_pos hDd hk
  have h1 : D*d/k*(-1) ≤ D*d/k*(Real.exp (-k*s) - 1) := by nlinarith
  have h2 : D*d/k ≤ O := by
    rw [div_le_iff₀ hk]
    nlinarith
  linarith

/-- Before the crossing time, the unclamped trajectory is nonnegative. -/
lemma indep_w_nonneg_before_cross (D O d k : ℝ) (hD : 0 < D) (hd : 0 < d) (hk : 0 < k)
    (hO : 0 ≤ O) (hθ : O*k/(D*d) < 1) (s : ℝ)
    (hs : s ≤ -Real.log (1 - O*k/(D*d))/k) :
    0 ≤ oxygenIndepSpec s D O d k := by
  rw [oxygenIndepSpec]
  have hDd : 0 < D*d := mul_pos hD hd
  have hθ0 : 0 ≤ O*k/(D*d) := div_nonneg (mul_nonneg hO hk.le) hDd.le
  have h1θ : 0 < 1 - O*k/(D*d) := by linarith
  have hks : Real.log (1 - O*k/(D*d)) ≤ -k*s := by
    have h := (le_div_iff₀ hk).mp hs
    linarith
  have hE : 1 - O*k/(D*d) ≤ Real.exp (-k*s) := by
    calc 1 - O*k/(D*d) = Real.exp (Real.log (1 - O*k/(D*d))) := (Real.exp_log h1θ).symm
      _ ≤ Real.exp (-k*s) := Real.exp_le_exp.mpr hks
  have hfrac : 0 < D*d/k := div_pos hDd hk
  have h2 : D*d/k*(-(O*k/(D*d))) ≤ D*d/k*(Real.exp (-k*s) - 1) := by nlinarith
  have h3 : D*d/k*(-(O*k/(D*d))) = -O := by
    field_simp
    ring
  linarith

/-- Bounds for the concentration-independent cumulative OER with positive
recovery rate, away from the singular parameter combination. -/
lemma cumulativeOER_true_bounds_kpos (dose D O d k c : ℝ) (hdose : 0 < dose) (hD : 0 < D)
    (hd : 0 < d) (hk : 0 < k) (hc : 0 < c) (hO : 0 ≤ O) (hA : D*d ≠ k*(O + c)) :
    1/3 ≤ cumulativeOER true dose D O d k c ∧ cumulativeOER true dose D O d k c ≤ 1 := by
  have ht : 0 < dose/D := div_pos hdose hD
  rw [cumulativeOER_true_eq dose D O d k c hdose.ne']
  by_cases hθ : O*k/(D*d) ≥ 1
  · rw [if_pos (Or.inl hθ)]
    have hwpos : ∀ s ∈ Set.Icc (0:ℝ) (dose/D), 0 ≤ oxygenIndepSpec s D O d k :=
      fun s _ => indep_w_nonneg_of_threshold D O d k hD hd hk hO hθ s
    have hE := indep_E_bounds D O d k c hk hc hO hA (dose/D) ht.le hwpos
    constructor
    · rw [le_div_iff₀ ht]
      linarith [hE.1]
    · rw [div_le_one ht]
      exact hE.2
  · push_neg at hθ
    by_cases hcross : -Real.log (1 - O*k/(D*d))/k > dose/D
    · rw [if_pos (Or.inr hcross)]
      have hwpos : ∀ s ∈ Set.Icc (0:ℝ) (dose/D), 0 ≤ oxygenIndepSpec s D O d k :=
        fun s hs => indep_w_nonneg_before_cross D O d k hD hd hk hO hθ s
          (le_trans hs.2 hcross.le)
      have hE := indep_E_bounds D O d k c hk hc hO hA (dose/D) ht.le hwpos
      constructor
      · rw [le_div_iff₀ ht]
        linarith [hE.1]
      · rw [div_le_one ht]
        exact hE.2
    · rw [if_neg (not_or.mpr ⟨not_le.mpr hθ, hcross⟩)]
      push_neg at hcross
      have hθ0 : 0 ≤ O*k/(D*d) := div_nonneg (mul_nonneg hO hk.le) (mul_pos hD hd).le
      have hT0 : 0 ≤ -Real.log (1 - O*k/(D*d))/k := by
        have hlog : Real.log (1 - O*k/(D*d)) ≤ 0 :=
          Real.log_nonpos (by linarith) (by linarith)
        have hneg : 0 ≤ -Real.log (1 - O*k/(D*d)) := by linarith
        exact div_nonneg hneg hk.le
      have hwpos : ∀ s ∈ Set.Icc (0:ℝ) (-Real.log (1 - O*k/(D*d))/k),
          0 ≤ oxygenIndepSpec s D O d k :=
        fun s hs => indep_w_nonneg_before_cross D O d k hD hd hk hO hθ s hs.2
      have hE := indep_E_bounds D O d k c hk hc hO hA
        (-Real.log (1 - O*k/(D*d))/k) hT0 hwpos
      constructor
      · rw [le_div_iff₀ ht]
        linarith [hE.1]
      · rw [div_le_one ht]
        linarith [hE.2]

/-- The checked `cumulativeOER` honours the zero-dose sentinel for any
arguments: the guard precedes every division. -/
lemma cumulativeOERChecked_zero (lm : Bool)
    (doseRate O2Mean oxDepletion oxRecovery OERCenter : ℝ) :
    cumulativeOERChecked lm 0 doseRate O2Mean oxDepletion oxRecovery OERCenter = some 0 := by
  rw [cumulativeOERChecked]
  exact if_pos rfl

/-- On the documented domain the checked concentration-dependent computation
succeeds and agrees with the total-division model: every divisor on that path
is nonzero. -/
lemma cumulativeOERChecked_false_eq (dose D O d k c : ℝ) (hdose : 0 < dose) (hD : 0 < D)
    (hd : 0 < d) (hk : 0 ≤ k) (hc : 0 < c) (hO : 0 ≤ O) :
    cumulativeOERChecked false dose D O d k c
      = some (cumulativeOER false dose D O d k c) := by
  have ht : 0 < dose/D := div_pos hdose hD
  have hK : 0 < k + d*D := by nlinarith [mul_pos hd hD]
  have hb : 0 < k*O + c*(k + d*D) := by nlinarith [mul_nonneg hk hO, mul_pos hc hK]
  have hOERDen : dose/D*(k*O + c*(k + d*D)) ≠ 0 := (mul_pos ht hb).ne'
  simp only [cumulativeOERChecked, cumulativeOER, hdose.ne', ite_false, if_false,
    eq_self_iff_true, if_true, ite_true]
  rw [divChecked_of_ne dose D hD.ne']
  simp only [Option.some_bind]
  rw [divChecked_of_ne _ _ hOERDen]
  simp only [Option.some_bind]
  rw [divChecked_of_ne _ _ (by norm_num : (3:ℝ) ≠ 0)]

/-- With zero recovery rate the checked concentration-independent computation
fails: the source divides `-np.log(1 - depletionThreshold)` by the zero
recovery rate on the way to `crossTime`. -/
lemma cumulativeOERChecked_true_k0 (dose D O d c : ℝ) (hdose : 0 < dose) (hD : 0 < D)
    (hd : 0 < d) :
    cumulativeOERChecked true dose D O d 0 c = none := by
  simp only [cumulativeOERChecked, hdose.ne', ite_false, if_false, eq_self_iff_true,
    if_true, ite_true, Bool.true_eq_false]
  rw [divChecked_of_ne dose D hD.ne']
  simp only [Option.some_bind]
  rw [divChecked_of_ne _ _ (mul_pos hD hd).ne']
  simp only [Option.some_bind, mul_zero, zero_div]
  rw [if_neg (by norm_num : ¬ ((0:ℝ) ≥ 1))]
  rw [divChecked_zero]
  rfl

/-- For positive recovery rate on the documented domain the checked
concentration-independent computation fails exactly when the closed-form
denominator vanishes, and otherwise agrees with the total-division model. -/
lemma cumulativeOERChecked_true_eq (dose D O d k c : ℝ) (hdose : 0 < dose) (hD : 0 < D)
    (hd : 0 < d) (hk : 0 < k) (hc : 0 < c) (hO : 0 ≤ O) :
    cumulativeOERChecked true dose D O d k c =
      if 3*D*d - 3*k*(O + c) = 0 then none
      else some (cumulativeOER true dose D O d k c) := by
  have ht : 0 < dose/D := div_pos hdose hD
  have hDd : (0:ℝ) < D*d := mul_pos hD hd
  have hkco : k*(c + O) ≠ 0 := (mul_pos hk (by linarith)).ne'
  simp only [cumulativeOERChecked, hdose.ne', ite_false, if_false, eq_self_iff_true,
    if_true, ite_true, Bool.true_eq_false]
  rw [divChecked_of_ne dose D hD.ne']
  simp only [Option.some_bind]
  rw [divChecked_of_ne _ _ hDd.ne']
  simp only [Option.some_bind]
  rw [cumulativeOER_true_eq dose D O d k c hdose.ne']
  by_cases hθ : O*k/(D*d) ≥ 1
  · rw [if_pos hθ, divChecked_of_ne _ _ hkco]
    simp only [Option.some_bind]
    by_cases hDen : 3*D*d - 3*k*(O + c) = 0
    · rw [hDen, divChecked_zero]
      simp only [Option.none_bind]
      simp
    · rw [divChecked_of_ne _ _ hDen]
      simp only [Option.some_bind]
      rw [divChecked_of_ne _ _ ht.ne', if_neg hDen, if_pos (Or.inl hθ)]
      simp only [indepClosedForm]
  · rw [if_neg hθ, divChecked_of_ne _ _ hk.ne']
    simp only [Option.some_bind]
    by_cases hcross : -Real.log (1 - O*k/(D*d))/k > dose/D
    · rw [if_pos hcross, divChecked_of_ne _ _ hkco]
      simp only [Option.some_bind]
      by_cases hDen : 3*D*d - 3*k*(O + c) = 0
      · rw [hDen, divChecked_zero]
        simp only [Option.none_bind]
        simp
      · rw [divChecked_of_ne _ _ hDen]
        simp only [Option.some_bind]
        rw [divChecked_of_ne _ _ ht.ne', if_neg hDen, if_pos (Or.inr hcross)]
        simp only [indepClosedForm]
    · rw [if_neg hcross, divChecked_of_ne _ _ hkco]
      simp only [Option.some_bind]
      by_cases hDen : 3*D*d - 3*k*(O + c) = 0
      · rw [hDen, divChecked_zero]
        simp only [Option.none_bind]
        simp
      · rw [divChecked_of_ne _ _ hDen]
        simp only [Option.some_bind]
        rw [divChecked_of_ne _ _ (by norm_num : (3:ℝ) ≠ 0)]
        simp only [Option.some_bind]
        rw [divChecked_of_ne _ _ ht.ne', if_neg hDen,
          if_neg (not_or.mpr ⟨hθ, hcross⟩)]
        simp only [indepClosedForm]

/-- Claim C7 (counterexample): at `dose = 1/5 > 0, doseRate = 2, O2Mean =
oxDepletion = oxRecovery = OERCenter = 1` — inside the claimed domain — the
closed-form denominator `3*doseRate*oxDepletion - 3*oxRecovery*(O2Mean +
OERCenter)` is exactly `0` and the concentration-independent computation
divides by it: no value is produced (the numpy source returns a
division-by-zero `±inf`), so in particular no value in `[1/3, 1]` is
returned. -/
theorem C7_counterexample :
    (3*2*1 - 3*1*(1 + 1) : ℝ) = 0 ∧
    cumulativeOERChecked true (1/5) 2 1 1 1 1 = none := by
  refine ⟨by norm_num, ?_⟩
  rw [cumulativeOERChecked_true_eq (1/5) 2 1 1 1 1 (by norm_num) (by norm_num) one_pos
    one_pos one_pos zero_le_one]
  rw [if_pos (by norm_num)]

/-- Claim C7 (amended): for every `dose > 0` and valid configuration,
whenever the computation of `cumulativeOER` completes without dividing by
zero — i.e. the checked evaluation returns a value — that value lies in
`[1/3, 1]`, in both depletion regimes.  (The computation divides by zero
exactly at `recoveryRate = 0` in the concentration-independent regime and at
the singular combination `doseRate*depletionRate = recoveryRate*(baselineOxygen
+ oerMidpoint)`; there the source yields `nan`/`±inf`, not a value in the
interval.) -/
theorem C7_cumulativeOER_range (lm : Bool) (dose doseRate O2Mean oxDepletion oxRecovery
    OERCenter v : ℝ) (hdose : 0 < dose) (hD : 0 < doseRate) (hd : 0 < oxDepletion)
    (hk : 0 ≤ oxRecovery) (hc : 0 < OERCenter) (hO : 0 ≤ O2Mean)
    (hv : cumulativeOERChecked lm dose doseRate O2Mean oxDepletion oxRecovery OERCenter
      = some v) :
    1/3 ≤ v ∧ v ≤ 1 := by
  cases lm with
  | false =>
      rw [cumulativeOERChecked_false_eq dose doseRate O2Mean oxDepletion oxRecovery
        OERCenter hdose hD hd hk hc hO] at hv
      rw [← Option.some.inj hv]
      exact cumulativeOER_false_bounds dose doseRate O2Mean oxDepletion oxRecovery
        OERCenter hdose hD hd hk hc hO
  | true =>
      rcases hk.eq_or_lt with hk0 | hkpos
      · rw [← hk0, cumulativeOERChecked_true_k0 dose doseRate O2Mean oxDepletion
          OERCenter hdose hD hd] at hv
        exact Option.noConfusion hv
      · rw [cumulativeOERChecked_true_eq dose doseRate O2Mean oxDepletion oxRecovery
          OERCenter hdose hD hd hkpos hc hO] at hv
        by_cases hDen : 3*doseRate*oxDepletion - 3*oxRecovery*(O2Mean + OERCenter) = 0
        · rw [if_pos hDen] at hv
          exact Option.noConfusion hv
        · rw [if_neg hDen] at hv
          rw [← Option.some.inj hv]
          have hA : doseRate*oxDepletion ≠ oxRecovery*(O2Mean + OERCenter) := by
            intro h
            apply hDen
            linarith
          exact cumulativeOER_true_bounds_kpos dose doseRate O2Mean oxDepletion oxRecovery
            OERCenter hdose hD hd hkpos hc hO hA

/-- Witness for the amended C7 in the concentration-independent regime with
all parameters `1` (the checked computation succeeds there). -/
theorem C7_witness :
    1/3 ≤ cumulativeOER true 1 1 1 1 1 1 ∧ cumulativeOER true 1 1 1 1 1 1 ≤ 1 :=
  C7_cumulativeOER_range true 1 1 1 1 1 1 (cumulativeOER true 1 1 1 1 1 1) one_pos
    one_pos one_pos zero_le_one one_pos zero_le_one (by
      rw [cumulativeOERChecked_true_eq 1 1 1 1 1 1 one_pos one_pos one_pos one_pos
        one_pos zero_le_one]
      rw [if_neg (by norm_num)])

/-- Claim C8: `cumulativeOER` returns exactly `0` at `dose = 0` for any
rate/midpoint overrides, and this is the only input with `dose ≥ 0` on the
documented domain producing `0`: for every `dose > 0` the computation either
produces a value of at least `1/3` — hence nonzero — or divides by zero and
produces no finite value at all (the numpy source yields `nan`/`±inf`, never
`0`). -/
theorem C8_zero_dose_sentinel (lm : Bool) (dose doseRate O2Mean oxDepletion oxRecovery
    OERCenter : ℝ) (hdose : 0 < dose) (hD : 0 < doseRate) (hd : 0 < oxDepletion)
    (hk : 0 ≤ oxRecovery) (hc : 0 < OERCenter) (hO : 0 ≤ O2Mean) :
    (∀ (lm' : Bool) (dr o2 dep rec cen : ℝ),
      cumulativeOERChecked lm' 0 dr o2 dep rec cen = some 0) ∧
    cumulativeOERChecked lm dose doseRate O2Mean oxDepletion oxRecovery OERCenter
      ≠ some 0 := by
  refine ⟨fun lm' dr o2 dep rec cen => cumulativeOERChecked_zero lm' dr o2 dep rec cen, ?_⟩
  intro hv
  cases lm with
  | false =>
      rw [cumulativeOERChecked_false_eq dose doseRate O2Mean oxDepletion oxRecovery
        OERCenter hdose hD hd hk hc hO] at hv
      have hb := cumulativeOER_false_bounds dose doseRate O2Mean oxDepletion oxRecovery
        OERCenter hdose hD hd hk hc hO
      rw [Option.some.inj hv] at hb
      linarith [hb.1]
  | true =>
      rcases hk.eq_or_lt with hk0 | hkpos
      · rw [← hk0, cumulativeOERChecked_true_k0 dose doseRate O2Mean oxDepletion
          OERCenter hdose hD hd] at hv
        exact Option.noConfusion hv
      · rw [cumulativeOERChecked_true_eq dose doseRate O2Mean oxDepletion oxRecovery
          OERCenter hdose hD hd hkpos hc hO] at hv
        by_cases hDen : 3*doseRate*oxDepletion - 3*oxRecovery*(O2Mean + OERCenter) = 0
        · rw [if_pos hDen] at hv
          exact Option.noConfusion hv
        · rw [if_neg hDen] at hv
          have hA : doseRate*oxDepletion ≠ oxRecovery*(O2Mean + OERCenter) := by
            intro h
            apply hDen
            linarith
          have hb := cumulativeOER_true_bounds_kpos dose doseRate O2Mean oxDepletion
            oxRecovery OERCenter hdose hD hd hkpos hc hO hA
          rw [Option.some.inj hv] at hb
          linarith [hb.1]

/-- Witness for C8 at zero and unit doses in the concentration-dependent
regime with all parameters `1`. -/
theorem C8_witness :
    cumulativeOERChecked false 0 1 1 1 1 1 = some 0 ∧
    cumulativeOERChecked false 1 1 1 1 1 1 ≠ some 0 :=
  ⟨(C8_zero_dose_sentinel false 1 1 1 1 1 1 one_pos one_pos one_pos zero_le_one one_pos
      zero_le_one).1 false 1 1 1 1 1,
   (C8_zero_dose_sentinel false 1 1 1 1 1 1 one_pos one_pos one_pos zero_le_one one_pos
      zero_le_one).2⟩

/-- The checked oxygen curve agrees with the total-division model in the
concentration-independent regime whenever the recovery rate is nonzero. -/
lemma oxygenCurveChecked_indep_eq (t D O d k : ℝ) (hk : k ≠ 0) :
    oxygenCurveChecked true t D O d k = some (oxygenCurve true t D O d k) := by
  rw [oxygenCurveChecked, oxygenCurve, if_pos rfl, if_pos rfl, divChecked_of_ne _ _ hk]
  rfl

/-- The checked oxygen curve agrees with the total-division model in the
concentration-dependent regime whenever its divisor is nonzero. -/
lemma oxygenCurveChecked_dep_eq (t D O d k : ℝ) (hden : D*d + k ≠ 0) :
    oxygenCurveChecked false t D O d k = some (oxygenCurve false t D O d k) := by
  rw [oxygenCurveChecked, oxygenCurve, if_neg Bool.false_ne_true, if_neg Bool.false_ne_true,
    divChecked_of_ne _ _ hden]
  rfl

/-- The concentration-dependent oxygen curve is monotonically non-increasing
in time at zero recovery rate: the half of claim C10 the source actually
computes (this branch performs no division by the recovery rate). -/
lemma oxygenCurve_dep_monotone_zero_recovery (doseRate O2Mean oxDepletion t1 t2 : ℝ)
    (hD : 0 < doseRate) (hd : 0 < oxDepletion) (hO : 0 ≤ O2Mean)
    (h1 : 0 ≤ t1) (h12 : t1 ≤ t2) :
    oxygenCurve false t2 doseRate O2Mean oxDepletion 0 ≤
      oxygenCurve false t1 doseRate O2Mean oxDepletion 0 := by
  rw [oxygenCurve_dep, oxygenCurve_dep]
  have hrd : 0 < doseRate*oxDepletion := mul_pos hD hd
  have hexp : Real.exp (-(doseRate*oxDepletion + 0)*t2) ≤
      Real.exp (-(doseRate*oxDepletion + 0)*t1) := by
    apply Real.exp_le_exp.mpr
    nlinarith
  have hcoef : 0 ≤ O2Mean/(doseRate*oxDepletion + 0) := by
    apply div_nonneg hO; linarith
  apply mul_le_mul_of_nonneg_left _ hcoef
  nlinarith

/-- Claim C10 (code evaluated at the failing input): with `recoveryRate = 0`
the concentration-independent branch divides `doseRate*oxDepletion` by the
zero recovery rate before any time dependence enters, so the checked
evaluation produces no oxygen value at any time and for any dose rate,
baseline or depletion rate — the source raises `ZeroDivisionError` (Python
floats) or yields a non-finite number (numpy scalars) instead of the
non-increasing curve the claim requires. -/
theorem C10_indep_zero_recovery_divides_by_zero (t doseRate O2Mean oxDepletion : ℝ) :
    oxygenCurveChecked true t doseRate O2Mean oxDepletion 0 = none := by
  rw [oxygenCurveChecked, if_pos rfl, divChecked_zero]
  rfl

end FlashOER
